import Mathlib

/-!
Verification development for the MediQuest healthcare backend
(consent-gated access control, alert engine, fault-tolerant ingestion,
emergency access). The definitions below are a shallow embedding of the
Python source under app/: SQLAlchemy rows become structures, the database
session becomes an explicit record of lists (insertion order mirrors the
rowid order the untyped queries rely on), datetimes become integers, and
Python floats become rationals.
-/

namespace MediQuest

/-- Timestamps (seconds, mirroring timezone-aware datetimes). -/
abbrev Time := Int

/-- app/models/consent.py ConsentPurpose (string enum). -/
inductive ConsentPurpose
  | treatment
  | emergency
  | research
  | analytics
  | third_party
deriving DecidableEq

/-- app/models/consent.py Consent row (columns used by the claims;
uuid primary keys become sequential Nat ids). -/
structure Consent where
  id : Nat
  patient_id : String
  purpose : ConsentPurpose
  granted : Bool
  granted_at : Option Time
  granted_by : Option String
  revoked_at : Option Time
  revoked_by : Option String
  granted_to : Option String
  consent_text : Option String
  expiry_date : Option Time
deriving DecidableEq

/-- app/models/device.py Device row (columns the ingestion path reads). -/
structure Device where
  id : String
  device_name : String
  api_key_hash : String
  is_active : Bool
  last_heartbeat : Option Time
deriving DecidableEq

/-- app/models/patient.py Patient row (columns the claims read;
demographics are omitted as they are never consulted). -/
structure Patient where
  id : String
  is_active : Bool
deriving DecidableEq

/-- app/models/vitals.py Vital row. vital_type is a plain string column. -/
structure Vital where
  id : Nat
  patient_id : String
  vital_type : String
  value : Rat
  unit : String
  source : String
  source_id : Option String
  recorded_at : Time
  batch_id : Option String
  notes : Option String
  uploaded_by : Option String
deriving DecidableEq

/-- app/models/medical_test.py MedicalTest row (fields set by the
device ingestion path). -/
structure MedicalTest where
  id : Nat
  patient_id : String
  test_type : String
  result : String
  numeric_value : Option Rat
  unit : Option String
  source : String
  source_id : Option String
  performed_at : Time
  notes : Option String
  batch_id : Option String
  uploaded_by : Option String
deriving DecidableEq

/-- Modelled from the spec: app/models/alert.py is absent from the source
tree; severity levels follow spec section 3 (LOW, MEDIUM, HIGH, CRITICAL). -/
inductive AlertSeverity
  | LOW
  | MEDIUM
  | HIGH
  | CRITICAL
deriving DecidableEq

/-- Modelled from the spec: app/models/alert.py is absent from the source
tree; the constructors are the members referenced by
app/services/alerts.py ALERT_RULES. -/
inductive AlertType
  | DIABETES_HIGH
  | DIABETES_LOW
  | ABNORMAL_HEART_RATE
  | LOW_OXYGEN
  | HIGH_BLOOD_PRESSURE
  | LOW_BLOOD_PRESSURE
  | ABNORMAL_TEMPERATURE
deriving DecidableEq

/-- Modelled from the spec: app/models/alert.py is absent from the source
tree; fields follow spec section 3 Alert and the keyword arguments passed by
AlertEngine.evaluate_vital. -/
structure Alert where
  id : Nat
  patient_id : String
  alert_type : AlertType
  severity : AlertSeverity
  title : String
  description : String
  vital_id : Option Nat
  trigger_value : Option Rat
  acknowledged : Bool
  resolved : Bool
deriving DecidableEq

/-- app/models/audit.py AuditAction members used by the embedded routers.
The full enum has more members; note that it has no DATA_ACCESS member,
which matters for the ingestion audit step. -/
inductive AuditAction
  | EMERGENCY_TRIGGERED
  | EMERGENCY_ACCESS
  | EMERGENCY_TERMINATED
  | CONSENT_GRANTED
  | CONSENT_REVOKED
  | DEVICE_INGESTION
deriving DecidableEq

/-- app/models/audit.py AuditLog row (columns written by AuditService.log). -/
structure AuditLog where
  id : Nat
  action : AuditAction
  actor_id : Option String
  actor_role : Option String
  resource_type : Option String
  resource_id : Option String
  description : Option String
  success : Bool
deriving DecidableEq

/-- app/models/emergency.py EmergencyAccess row. -/
structure EmergencyAccess where
  id : Nat
  patient_id : String
  triggered_by : String
  trigger_reason : String
  trigger_keyword : Option String
  granted_at : Time
  expires_at : Time
  is_active : Bool
  terminated : Bool
  terminated_at : Option Time
  terminated_by : Option String
  termination_reason : Option String
  hospital_notified : Bool
  notification_sent_at : Option Time
  access_count : Nat
  last_accessed_at : Option Time
deriving DecidableEq

/-- app/models/emergency.py EmergencyAccess.has_expired: a terminated
record counts as expired, otherwise compare the clock to expires_at. -/
def EmergencyAccess.has_expired (now : Time) (e : EmergencyAccess) : Bool :=
  if e.terminated then true else decide (e.expires_at < now)

/-- The relational store visible to one request: one list per table, in
insertion (rowid) order, which is the order the untyped first()/all()
queries observe; nextId generates fresh primary keys. -/
structure DB where
  devices : List Device
  patients : List Patient
  consents : List Consent
  vitals : List Vital
  tests : List MedicalTest
  alerts : List Alert
  emergencies : List EmergencyAccess
  audits : List AuditLog
  nextId : Nat
deriving DecidableEq

/-- One rule row of app/services/alerts.py ALERT_RULES:
(condition, alert_type, severity, title, description_template). -/
structure AlertRule where
  cond : Rat → Bool
  alert_type : AlertType
  severity : AlertSeverity
  title : String
  descr : String

/-- app/services/alerts.py AlertEngine.ALERT_RULES. The Python dict is
keyed by the VitalType string enum and looked up with the string stored in
Vital.vital_type, so the embedding keys directly on the enum string values,
keeping the declaration order of the rule lists. -/
def ALERT_RULES (vital_type : String) : List AlertRule :=
  if vital_type == "glucose" then
    [ ⟨fun v => decide (v > 300), .DIABETES_HIGH, .CRITICAL,
        "Critical High Blood Glucose",
        "Blood glucose level of {value} mg/dL is critically high. Immediate action required."⟩,
      ⟨fun v => decide (v > 180), .DIABETES_HIGH, .HIGH,
        "High Blood Glucose",
        "Blood glucose level of {value} mg/dL is above normal range."⟩,
      ⟨fun v => decide (v < 70), .DIABETES_LOW, .HIGH,
        "Low Blood Glucose",
        "Blood glucose level of {value} mg/dL is below normal range."⟩,
      ⟨fun v => decide (v < 54), .DIABETES_LOW, .CRITICAL,
        "Critical Low Blood Glucose",
        "Blood glucose level of {value} mg/dL is critically low. Immediate action required."⟩ ]
  else if vital_type == "heart_rate" then
    [ ⟨fun v => decide (v > 120), .ABNORMAL_HEART_RATE, .HIGH,
        "High Heart Rate", "Heart rate of {value} bpm is elevated."⟩,
      ⟨fun v => decide (v < 50), .ABNORMAL_HEART_RATE, .HIGH,
        "Low Heart Rate", "Heart rate of {value} bpm is below normal range."⟩ ]
  else if vital_type == "spo2" then
    [ ⟨fun v => decide (v < 90), .LOW_OXYGEN, .CRITICAL,
        "Critical Low Oxygen Saturation",
        "Oxygen saturation of {value}% is critically low."⟩,
      ⟨fun v => decide (v < 95), .LOW_OXYGEN, .HIGH,
        "Low Oxygen Saturation",
        "Oxygen saturation of {value}% is below normal range."⟩ ]
  else if vital_type == "bp_systolic" then
    [ ⟨fun v => decide (v > 180), .HIGH_BLOOD_PRESSURE, .CRITICAL,
        "Critical High Blood Pressure",
        "Systolic blood pressure of {value} mmHg is critically high."⟩,
      ⟨fun v => decide (v > 140), .HIGH_BLOOD_PRESSURE, .MEDIUM,
        "High Blood Pressure",
        "Systolic blood pressure of {value} mmHg is elevated."⟩,
      ⟨fun v => decide (v < 90), .LOW_BLOOD_PRESSURE, .MEDIUM,
        "Low Blood Pressure",
        "Systolic blood pressure of {value} mmHg is low."⟩ ]
  else if vital_type == "temperature" then
    [ ⟨fun v => decide (v > (197 : Rat) / 5), .ABNORMAL_TEMPERATURE, .HIGH,
        "High Fever", "Body temperature of {value}°C indicates high fever."⟩,
      ⟨fun v => decide (v > 38), .ABNORMAL_TEMPERATURE, .MEDIUM,
        "Fever", "Body temperature of {value}°C is above normal."⟩,
      ⟨fun v => decide (v < 35), .ABNORMAL_TEMPERATURE, .HIGH,
        "Hypothermia", "Body temperature of {value}°C is abnormally low."⟩ ]
  else []

/-- app/services/alerts.py AlertEngine.evaluate_vital: scan the rules for
the vital type in declaration order; on the first matching condition build
and persist an Alert referencing the vital; otherwise no effect. -/
def evaluateVital (db : DB) (v : Vital) : Option Alert × DB :=
  match (ALERT_RULES v.vital_type).find? (fun r => r.cond v.value) with
  | none => (none, db)
  | some r =>
    let a : Alert :=
      { id := db.nextId
        patient_id := v.patient_id
        alert_type := r.alert_type
        severity := r.severity
        title := r.title
        description := r.descr.replace ("{value}") (toString v.value)
        vital_id := some v.id
        trigger_value := some v.value
        acknowledged := false
        resolved := false }
    (some a, { db with alerts := db.alerts ++ [a], nextId := db.nextId + 1 })

/-- app/services/alerts.py AlertEngine.evaluate_batch: evaluate each vital
in input order and collect the generated alerts. -/
def evaluateBatch (db : DB) (vs : List Vital) : List Alert × DB :=
  vs.foldl
    (fun acc v =>
      match evaluateVital acc.2 v with
      | (some a, db') => (acc.1 ++ [a], db')
      | (none, db') => (acc.1, db'))
    ([], db)

/-- Spec-side definition (spec section 3): a consent is active iff granted,
not revoked, and its expiry (when present) lies strictly in the future.
Stated from the spec wording for comparison with the source behaviour. -/
def activeConsentSpec (now : Time) (c : Consent) : Bool :=
  c.granted && c.revoked_at == none &&
    (match c.expiry_date with
     | none => true
     | some e => decide (now < e))

/-- app/services/consent.py ConsentService.check_consent: filter on
(patient, purpose, granted); only when a doctor_id is supplied is the
grantee restricted to that doctor or NULL; then test revocation and expiry
of the first row found. -/
def checkConsent (db : DB) (now : Time) (patient_id : String)
    (purpose : ConsentPurpose) (doctor_id : Option String) : Bool :=
  let base := db.consents.filter fun c =>
    c.patient_id == patient_id && c.purpose == purpose && c.granted
  let q :=
    match doctor_id with
    | some d => base.filter fun c : Consent => c.granted_to == some d || c.granted_to == none
    | none => base
  match q.head? with
  | none => false
  | some c =>
    if c.revoked_at.isSome then false
    else
      match c.expiry_date with
      | some e => decide (now ≤ e)
      | none => true

/-- The fresh row app/services/consent.py grant_consent constructs when it
decides to insert (granted true, revocation fields unset). -/
def freshConsent (db : DB) (now : Time) (patient_id : String)
    (purpose : ConsentPurpose) (granted_by_id : String)
    (granted_to_id : Option String) (consent_text : Option String)
    (expiry_date : Option Time) : Consent :=
  { id := db.nextId
    patient_id := patient_id
    purpose := purpose
    granted := true
    granted_at := some now
    granted_by := some granted_by_id
    revoked_at := none
    revoked_by := none
    granted_to := granted_to_id
    consent_text := consent_text
    expiry_date := expiry_date }

/-- The lookup grant_consent performs: the first row for the exact
(patient, purpose, grantee) tuple, with no filter on activity. -/
def tupleFirst (db : DB) (patient_id : String) (purpose : ConsentPurpose)
    (granted_to_id : Option String) : Option Consent :=
  (db.consents.filter fun c : Consent =>
    c.patient_id == patient_id && c.purpose == purpose &&
      c.granted_to == granted_to_id).head?

/-- The insert arm of grant_consent: append the fresh granted row and
return it. -/
def grantInsert (db : DB) (now : Time) (patient_id : String)
    (purpose : ConsentPurpose) (granted_by_id : String)
    (granted_to_id : Option String) (consent_text : Option String)
    (expiry_date : Option Time) : Consent × DB :=
  let fresh := freshConsent db now patient_id purpose granted_by_id
    granted_to_id consent_text expiry_date
  (fresh, { db with consents := db.consents ++ [fresh], nextId := db.nextId + 1 })

/-- app/services/consent.py ConsentService.grant_consent, continued: on a
first row with granted true, return it unchanged; otherwise insert. -/
def grantConsent (db : DB) (now : Time) (patient_id : String)
    (purpose : ConsentPurpose) (granted_by_id : String)
    (granted_to_id : Option String) (consent_text : Option String)
    (expiry_date : Option Time) : Consent × DB :=
  match tupleFirst db patient_id purpose granted_to_id with
  | some c =>
    if c.granted then (c, db)
    else grantInsert db now patient_id purpose granted_by_id granted_to_id
      consent_text expiry_date
  | none => grantInsert db now patient_id purpose granted_by_id granted_to_id
      consent_text expiry_date

/-- app/services/consent.py ConsentService.revoke_consent: find the first
granted row matching (patient, purpose) and, when supplied, the grantee;
flip granted off and stamp the revocation; none found reports failure. -/
def revokeConsent (db : DB) (now : Time) (patient_id : String)
    (purpose : ConsentPurpose) (revoked_by_id : String)
    (granted_to_id : Option String) : Option Consent × DB :=
  let base := db.consents.filter fun c =>
    c.patient_id == patient_id && c.purpose == purpose && c.granted
  let q :=
    match granted_to_id with
    | some d => base.filter fun c : Consent => c.granted_to == some d
    | none => base
  match q.head? with
  | none => (none, db)
  | some c =>
    let c' := { c with granted := false, revoked_at := some now,
                       revoked_by := some revoked_by_id }
    (some c',
      { db with consents := db.consents.map fun x : Consent => if x.id == c.id then c' else x })

/-- app/routers/device_ingest.py check_patient_consent builds its query
with the conjunct Consent.is_active == True. Consent.is_active is a plain
Python property, not a mapped column, so at class level the expression
compares the property object itself with True: that comparison is the
Python constant False, which SQLAlchemy coerces to the SQL constant false
inside the WHERE clause. This definition records that constant. -/
def consentIsActiveClassLevel : Bool := false

/-- app/routers/device_ingest.py check_patient_consent: first row with
(patient, purpose=TREATMENT, granted, and the class-level is_active
expression); consent passes iff such a row exists. -/
def checkPatientConsent (db : DB) (patient_id : String) : Bool :=
  ((db.consents.filter fun c =>
      c.patient_id == patient_id && c.purpose == ConsentPurpose.treatment &&
        c.granted && consentIsActiveClassLevel).head?).isSome

/-- HTTP-level failure: FastAPI HTTPException status code and detail. -/
structure HttpError where
  status : Nat
  detail : String
deriving DecidableEq

/-- Modelled from the spec: app/auth/password.py is absent from the source
tree; the spec (section 6) only needs an opaque credential store with
hash and verify, where verify accepts exactly the preimage of the hash. -/
def hashPassword (plain : String) : String := "bcrypt$" ++ plain

/-- Modelled from the spec: verify side of the opaque credential store. -/
def verifyPassword (plain hashed : String) : Bool := hashPassword plain == hashed

/-- app/schemas.py MedicalTestCreate (already-validated fields; the device
ingestion claims never exercise malformed tests). -/
structure MedicalTestCreate where
  patient_id : String
  test_type : String
  result : String
  numeric_value : Option Rat
  unit : Option String
  source : String
  source_id : Option String
  performed_at : Time
  notes : Option String
deriving DecidableEq

/-- A JSON scalar as it arrives in a device payload field, before pydantic
validation. -/
inductive JVal
  | jnum (q : Rat)
  | jstr (s : String)
  | jnull
deriving DecidableEq

/-- A raw /devices/ingest request body: every measurement field may be
absent, null, a number, or a string. -/
structure RawIngest where
  device_id : String
  api_key : String
  patient_id : String
  heart_rate : Option JVal
  bp_systolic : Option JVal
  bp_diastolic : Option JVal
  spo2 : Option JVal
  temperature : Option JVal
  glucose : Option JVal
  weight : Option JVal
  height : Option JVal
  bmi : Option JVal
  respiratory_rate : Option JVal
  ecg : Option JVal
  steps : Option JVal
  sleep_hours : Option JVal
  calories : Option JVal
  medical_tests : List MedicalTestCreate
  recorded_at : Option Time
  batch_id : Option String
deriving DecidableEq

/-- app/schemas.py FaultTolerantDeviceIngest after pydantic validation:
the measurement fields are typed Optional float (ecg Optional str, steps
Optional int), so a validated request carries parsed values only. -/
structure Ingest where
  device_id : String
  api_key : String
  patient_id : String
  heart_rate : Option Rat
  bp_systolic : Option Rat
  bp_diastolic : Option Rat
  spo2 : Option Rat
  temperature : Option Rat
  glucose : Option Rat
  weight : Option Rat
  height : Option Rat
  bmi : Option Rat
  respiratory_rate : Option Rat
  ecg : Option String
  steps : Option Int
  sleep_hours : Option Rat
  calories : Option Rat
  medical_tests : List MedicalTestCreate
  recorded_at : Option Time
  batch_id : Option String
deriving DecidableEq

/-- Read a digit sequence as a number, rejecting any non-digit. -/
def parseNatCore : List Char → Nat → Option Nat
  | [], acc => some acc
  | c :: cs, acc =>
    if c.isDigit then parseNatCore cs (acc * 10 + (c.toNat - 48)) else none

/-- Parse an optionally signed integer literal; any other string is not a
number. -/
def parseIntString (s : String) : Option Int :=
  match s.data with
  | [] => none
  | '-' :: cs =>
    match cs with
    | [] => none
    | _ => (parseNatCore cs 0).map (fun n => -(n : Int))
  | cs => (parseNatCore cs 0).map (fun n => (n : Int))

/-- pydantic validation of one Optional float field: absent and null give
None; numbers pass through; a string must parse as a number or the whole
request fails validation. Pydantic also accepts decimal-fraction strings;
integer-literal strings are the only numeric strings any claim exercises,
so string parsing is embedded as integer parsing. -/
def pyOptFloat (name : String) : Option JVal → Except String (Option Rat)
  | none => .ok none
  | some .jnull => .ok none
  | some (.jnum q) => .ok (some q)
  | some (.jstr s) =>
    match parseIntString s with
    | some n => .ok (some (n : Rat))
    | none => .error (name ++ ": value is not a valid float")

/-- pydantic validation of the Optional int steps field. -/
def pyOptInt (name : String) : Option JVal → Except String (Option Int)
  | none => .ok none
  | some .jnull => .ok none
  | some (.jnum q) => if q.den == 1 then .ok (some q.num) else .error (name ++ ": value is not a valid integer")
  | some (.jstr s) =>
    match parseIntString s with
    | some n => .ok (some n)
    | none => .error (name ++ ": value is not a valid integer")

/-- pydantic validation of the Optional str ecg field (numbers are coerced
to their string form, as pydantic v1 lax str fields do). -/
def pyOptStr : Option JVal → Except String (Option String)
  | none => .ok none
  | some .jnull => .ok none
  | some (.jstr s) => .ok (some s)
  | some (.jnum q) => .ok (some (toString q))

/-- pydantic validation of a whole FaultTolerantDeviceIngest body: any
single invalid field rejects the entire request (FastAPI then answers 422
before the route handler runs). -/
def parseIngest (r : RawIngest) : Except String Ingest := do
  let heart_rate ← pyOptFloat ("heart_rate") r.heart_rate
  let bp_systolic ← pyOptFloat ("bp_systolic") r.bp_systolic
  let bp_diastolic ← pyOptFloat ("bp_diastolic") r.bp_diastolic
  let spo2 ← pyOptFloat ("spo2") r.spo2
  let temperature ← pyOptFloat ("temperature") r.temperature
  let glucose ← pyOptFloat ("glucose") r.glucose
  let weight ← pyOptFloat ("weight") r.weight
  let height ← pyOptFloat ("height") r.height
  let bmi ← pyOptFloat ("bmi") r.bmi
  let respiratory_rate ← pyOptFloat ("respiratory_rate") r.respiratory_rate
  let ecg ← pyOptStr r.ecg
  let steps ← pyOptInt ("steps") r.steps
  let sleep_hours ← pyOptFloat ("sleep_hours") r.sleep_hours
  let calories ← pyOptFloat ("calories") r.calories
  pure { device_id := r.device_id, api_key := r.api_key,
         patient_id := r.patient_id,
         heart_rate, bp_systolic, bp_diastolic, spo2, temperature, glucose,
         weight, height, bmi, respiratory_rate, ecg, steps, sleep_hours,
         calories, medical_tests := r.medical_tests,
         recorded_at := r.recorded_at, batch_id := r.batch_id }

/-- A validated measurement value as the ingestion loop sees it: every
field except ecg is a number, ecg is a string. -/
inductive FieldVal
  | num (q : Rat)
  | text (s : String)
deriving DecidableEq

/-- app/routers/device_ingest.py vital_mappings, in Python dict insertion
order, paired with the present field values of the request. -/
def ingestFields (d : Ingest) : List (String × String × Option FieldVal) :=
  [ ("heart_rate", "bpm", d.heart_rate.map .num),
    ("bp_systolic", "mmHg", d.bp_systolic.map .num),
    ("bp_diastolic", "mmHg", d.bp_diastolic.map .num),
    ("spo2", "%", d.spo2.map .num),
    ("temperature", "°F", d.temperature.map .num),
    ("glucose", "mg/dL", d.glucose.map .num),
    ("weight", "kg", d.weight.map .num),
    ("height", "cm", d.height.map .num),
    ("bmi", "kg/m²", d.bmi.map .num),
    ("respiratory_rate", "bpm", d.respiratory_rate.map .num),
    ("ecg", "raw", d.ecg.map .text),
    ("steps", "count", d.steps.map fun n => .num (n : Rat)),
    ("sleep_hours", "hours", d.sleep_hours.map .num),
    ("calories", "kcal", d.calories.map .num) ]

/-- One staged Vital row of the ingestion loop: numeric values are stored
as given; a string value is stored as 0.0 (the source writes
float(value) if the value is not a str, else 0.0), and the ecg special
case copies the string into notes. Only the ecg field can carry a string
after validation, so the text branch is exactly the ecg branch. -/
def mkDeviceVital (vid : Nat) (patient_id vital_type unit : String)
    (fv : FieldVal) (deviceId : String) (recorded_at : Time)
    (batch_id : Option String) : Vital :=
  { id := vid
    patient_id := patient_id
    vital_type := vital_type
    value := match fv with | .num q => q | .text _ => 0
    unit := unit
    source := "device"
    source_id := some deviceId
    recorded_at := recorded_at
    batch_id := batch_id
    notes := match fv with | .num _ => none | .text s => some s
    uploaded_by := none }

/-- app/routers/device_ingest.py step 5: walk the mapping in order, stage a
Vital for every present field and record its vital_type string; absent
fields are skipped. Returns the stored names, the staged rows and the next
fresh id. -/
def stageVitals (d : Ingest) (deviceId : String) (recorded_at : Time)
    (startId : Nat) : List String × List Vital × Nat :=
  (ingestFields d).foldl
    (fun acc f =>
      match f.2.2 with
      | none => acc
      | some fv =>
        (acc.1 ++ [f.1],
         acc.2.1 ++ [mkDeviceVital acc.2.2 d.patient_id f.1 f.2.1 fv deviceId
                      recorded_at d.batch_id],
         acc.2.2 + 1))
    ([], [], startId)

/-- app/routers/device_ingest.py step 6: stage a MedicalTest row per
submitted test, recording its test_type. -/
def stageTests (d : Ingest) (deviceId : String) (startId : Nat) :
    List String × List MedicalTest × Nat :=
  d.medical_tests.foldl
    (fun acc t =>
      (acc.1 ++ [t.test_type],
       acc.2.1 ++ [{ id := acc.2.2
                     patient_id := d.patient_id
                     test_type := t.test_type
                     result := t.result
                     numeric_value := t.numeric_value
                     unit := t.unit
                     source := t.source
                     source_id := some deviceId
                     performed_at := t.performed_at
                     notes := t.notes
                     batch_id := d.batch_id
                     uploaded_by := none }],
       acc.2.2 + 1))
    ([], [], startId)

/-- app/routers/device_ingest.py step 7: query every Vital row whose
batch_id equals the request batch_id (SQLAlchemy turns comparison with a
None batch_id into IS NULL, which Option equality mirrors) and feed each
one to the alert engine, collecting the generated alert ids. The staged
rows of the current request are already visible to this query: the session
(app/database.py, absent from the source tree, is modelled from the spec
as the default autoflushing SQLAlchemy session) flushes pending rows
before an in-transaction query. -/
def alertScanStep (db : DB) (batch_id : Option String) : List Nat × DB :=
  (db.vitals.filter fun v : Vital => v.batch_id == batch_id).foldl
    (fun acc v =>
      match evaluateVital acc.2 v with
      | (some a, db') => (acc.1 ++ [a.id], db')
      | (none, db') => (acc.1, db'))
    ([], db)

/-- The JSON body a successful ingestion answers with. -/
structure IngestResponse where
  success : Bool
  message : String
  patient_id : String
  device_id : String
  vitals_stored : List String
  tests_stored : List String
  alerts_generated : List Nat
  timestamp : Time
deriving DecidableEq

/-- app/routers/device_ingest.py ingest_device_data on a validated request:
authenticate the device (404 when unknown or inactive, 401 on a bad key),
enforce the consent gate (403), update the heartbeat, default the
timestamp to the receipt time, stage vitals and tests, run the alert scan,
and commit. The audit step (source step 8) constructs its row with
AuditAction.DATA_ACCESS, a member the AuditAction enum does not define;
the resulting AttributeError is swallowed by the enclosing try block, so
no audit row is written and the request still succeeds. -/
def ingestDeviceData (db : DB) (d : Ingest) (now : Time) :
    Except HttpError IngestResponse × DB :=
  match (db.devices.filter fun dev : Device =>
      dev.id == d.device_id && dev.is_active).head? with
  | none => (.error ⟨404, "Device not found or inactive"⟩, db)
  | some dev =>
    if !verifyPassword d.api_key dev.api_key_hash then
      (.error ⟨401, "Invalid API key"⟩, db)
    else if !checkPatientConsent db d.patient_id then
      (.error ⟨403, "Patient has not granted consent for data collection"⟩, db)
    else
      let db1 := { db with devices := db.devices.map fun x : Device =>
        if x.id == dev.id then { x with last_heartbeat := some now } else x }
      let recorded_at := d.recorded_at.getD now
      let staged := stageVitals d dev.id recorded_at db1.nextId
      let db2 := { db1 with vitals := db1.vitals ++ staged.2.1, nextId := staged.2.2 }
      let ts := stageTests d dev.id db2.nextId
      let db3 := { db2 with tests := db2.tests ++ ts.2.1, nextId := ts.2.2 }
      let scan := alertScanStep db3 d.batch_id
      (.ok { success := true
             message := "Data ingested successfully"
             patient_id := d.patient_id
             device_id := dev.id
             vitals_stored := staged.1
             tests_stored := ts.1
             alerts_generated := scan.1
             timestamp := recorded_at },
       scan.2)

/-- The full /devices/ingest entry point on a raw body: pydantic
validation first (a 422 without touching the store), then the handler. -/
def ingestRaw (db : DB) (r : RawIngest) (now : Time) :
    Except HttpError IngestResponse × DB :=
  match parseIngest r with
  | .error msg => (.error ⟨422, msg⟩, db)
  | .ok d => ingestDeviceData db d now

/-- app/config.py Settings.EMERGENCY_ACCESS_DURATION_HOURS default. -/
def EMERGENCY_ACCESS_DURATION_HOURS : Int := 2

/-- app/models/user.py User row (the id and role the emergency endpoints
read from the authenticated caller). -/
structure UserRec where
  id : String
  role : String
deriving DecidableEq

/-- The record trigger_emergency_access constructs: active, unterminated,
unnotified, zero accesses, expiring one configured duration after now. -/
def triggeredAccess (db : DB) (now : Time) (patient_id : String)
    (user : UserRec) (trigger_reason : String)
    (trigger_keyword : Option String) : EmergencyAccess :=
  { id := db.nextId
    patient_id := patient_id
    triggered_by := user.id
    trigger_reason := trigger_reason
    trigger_keyword := trigger_keyword
    granted_at := now
    expires_at := now + EMERGENCY_ACCESS_DURATION_HOURS * 3600
    is_active := true
    terminated := false
    terminated_at := none
    terminated_by := none
    termination_reason := none
    hospital_notified := false
    notification_sent_at := none
    access_count := 0
    last_accessed_at := none }

/-- The same record after the mock hospital notification marks it sent. -/
def notifiedAccess (db : DB) (now : Time) (patient_id : String)
    (user : UserRec) (trigger_reason : String)
    (trigger_keyword : Option String) : EmergencyAccess :=
  { triggeredAccess db now patient_id user trigger_reason trigger_keyword with
      hospital_notified := true
      notification_sent_at := some now }

/-- app/routers/emergency.py trigger_emergency_access: 404 unless the
patient exists; expires_at is the receipt time plus the configured
duration; the record starts active, unterminated, with a zero access
count; the mock notification then marks the record notified, and an
EMERGENCY_TRIGGERED audit row is written unconditionally. -/
def triggerEmergencyAccess (db : DB) (now : Time) (patient_id : String)
    (user : UserRec) (trigger_reason : String)
    (trigger_keyword : Option String) : Except HttpError EmergencyAccess × DB :=
  match (db.patients.filter fun p : Patient => p.id == patient_id).head? with
  | none => (.error ⟨404, "Patient not found"⟩, db)
  | some _ =>
    let e1 := notifiedAccess db now patient_id user trigger_reason trigger_keyword
    let audit : AuditLog :=
      { id := db.nextId + 1
        action := .EMERGENCY_TRIGGERED
        actor_id := some user.id
        actor_role := some user.role
        resource_type := some ("emergency_access")
        resource_id := none
        description := some ("Emergency access triggered for patient " ++ patient_id)
        success := true }
    (.ok e1,
     { db with emergencies := db.emergencies ++ [e1]
               audits := db.audits ++ [audit]
               nextId := db.nextId + 2 })

/-- The JSON body a successful emergency data access answers with. -/
structure AccessDataResponse where
  emergency_access_id : Nat
  patient_id : String
  access_granted_at : Time
  access_expires_at : Time
  access_count : Nat
deriving DecidableEq

/-- The access-tracking update each successful emergency read performs:
increment the counter and stamp the access time. -/
def incrementedAccess (now : Time) (e : EmergencyAccess) : EmergencyAccess :=
  { e with access_count := e.access_count + 1, last_accessed_at := some now }

/-- app/routers/emergency.py emergency_access_data: find the record by id
and patient (404), refuse when has_expired (which is also true for
terminated records) with the expiry detail, refuse terminated records with
the termination detail, otherwise increment access_count, stamp
last_accessed_at and commit; then look up the patient (a missing row 404s
after the increment commit), write the per-access EMERGENCY_ACCESS audit
row and answer with the updated counter. -/
def emergencyAccessData (db : DB) (now : Time) (patient_id : String)
    (emergency_access_id : Nat) (user : UserRec) :
    Except HttpError AccessDataResponse × DB :=
  match (db.emergencies.filter fun e : EmergencyAccess =>
      e.id == emergency_access_id && e.patient_id == patient_id).head? with
  | none => (.error ⟨404, "Emergency access not found"⟩, db)
  | some e =>
    if e.has_expired now then
      (.error ⟨403, "Emergency access has expired"⟩, db)
    else if e.terminated then
      (.error ⟨403, "Emergency access has been terminated"⟩, db)
    else
      let e' := incrementedAccess now e
      let upd := db.emergencies.map
        (fun x : EmergencyAccess => if x.id == e.id then e' else x)
      let db1 := { db with emergencies := upd }
      match (db1.patients.filter fun p : Patient => p.id == patient_id).head? with
      | none => (.error ⟨404, "Patient not found"⟩, db1)
      | some p =>
        let audit : AuditLog :=
          { id := db1.nextId
            action := .EMERGENCY_ACCESS
            actor_id := some user.id
            actor_role := some user.role
            resource_type := some ("patient")
            resource_id := some patient_id
            description := some ("Emergency access to patient " ++ patient_id ++ " data")
            success := true }
        let db2 := { db1 with audits := db1.audits ++ [audit],
                              nextId := db1.nextId + 1 }
        (.ok { emergency_access_id := emergency_access_id
               patient_id := p.id
               access_granted_at := e'.granted_at
               access_expires_at := e'.expires_at
               access_count := e'.access_count },
         db2)

/-- app/routers/emergency.py get_active_emergency_access: every record
whose is_active flag is set; neither expires_at nor terminated is
consulted by the query. -/
def getActiveEmergencyAccess (db : DB) : List EmergencyAccess :=
  db.emergencies.filter fun e : EmergencyAccess => e.is_active

/-- app/routers/emergency.py terminate_emergency_access: find the record
by id (404), refuse an already terminated record (400), otherwise set the
terminated flags, stamp the metadata, clear is_active, and write an
EMERGENCY_TERMINATED audit row. -/
def terminateEmergencyAccess (db : DB) (now : Time) (emergency_access_id : Nat)
    (user : UserRec) (termination_reason : String) :
    Except HttpError EmergencyAccess × DB :=
  match (db.emergencies.filter fun e : EmergencyAccess =>
      e.id == emergency_access_id).head? with
  | none => (.error ⟨404, "Emergency access not found"⟩, db)
  | some e =>
    if e.terminated then
      (.error ⟨400, "Emergency access already terminated"⟩, db)
    else
      let e' := { e with terminated := true
                         terminated_at := some now
                         terminated_by := some user.id
                         termination_reason := some termination_reason
                         is_active := false }
      let audit : AuditLog :=
        { id := db.nextId
          action := .EMERGENCY_TERMINATED
          actor_id := some user.id
          actor_role := some user.role
          resource_type := some ("emergency_access")
          resource_id := none
          description := some ("Emergency access terminated. Reason: " ++ termination_reason)
          success := true }
      (.ok e',
       { db with emergencies := db.emergencies.map
                   (fun x : EmergencyAccess => if x.id == e.id then e' else x)
                 audits := db.audits ++ [audit]
                 nextId := db.nextId + 1 })

/-! Concrete fixtures used by the claim theorems and witnesses. -/

/-- An empty store. -/
def emptyDB : DB :=
  { devices := [], patients := [], consents := [], vitals := [], tests := [],
    alerts := [], emergencies := [], audits := [], nextId := 0 }

/-- An active registered device whose key is k1. -/
def dev1 : Device :=
  { id := "dev1", device_name := "Pi", api_key_hash := hashPassword ("k1"),
    is_active := true, last_heartbeat := none }

/-- Patient p1, active. -/
def patientP1 : Patient := { id := "p1", is_active := true }

/-- A doctor account used by the emergency endpoints. -/
def userDoc : UserRec := { id := "u1", role := "doctor" }

/-- An unrevoked, unexpired, granted treatment consent for p1. -/
def consentActiveP1 : Consent :=
  { id := 0, patient_id := "p1", purpose := .treatment, granted := true,
    granted_at := some 0, granted_by := some ("u1"), revoked_at := none,
    revoked_by := none, granted_to := none, consent_text := none,
    expiry_date := none }

/-- A validated ingestion request with every optional field empty. -/
def blankIngest : Ingest :=
  { device_id := "", api_key := "", patient_id := "",
    heart_rate := none, bp_systolic := none, bp_diastolic := none,
    spo2 := none, temperature := none, glucose := none, weight := none,
    height := none, bmi := none, respiratory_rate := none, ecg := none,
    steps := none, sleep_hours := none, calories := none,
    medical_tests := [], recorded_at := none, batch_id := none }

/-- A raw ingestion body with every optional field absent. -/
def blankRaw : RawIngest :=
  { device_id := "", api_key := "", patient_id := "",
    heart_rate := none, bp_systolic := none, bp_diastolic := none,
    spo2 := none, temperature := none, glucose := none, weight := none,
    height := none, bmi := none, respiratory_rate := none, ecg := none,
    steps := none, sleep_hours := none, calories := none,
    medical_tests := [], recorded_at := none, batch_id := none }

/-- A device-sourced glucose reading of the given value. -/
def glucoseVital (q : Rat) : Vital :=
  { id := 0, patient_id := "p1", vital_type := "glucose", value := q,
    unit := "mg/dL", source := "device", source_id := none,
    recorded_at := 0, batch_id := none, notes := none, uploaded_by := none }


/-- The error view of a route result: status code and detail when the
route raised, none on success. -/
def resultErr {α : Type} : Except HttpError α → Option (Nat × String)
  | .error e => some (e.status, e.detail)
  | .ok _ => none

/-- The success view of a route result. -/
def resultOk {α : Type} : Except HttpError α → Option α
  | .ok a => some a
  | .error _ => none

/-- Erase every grantee in the store, turning each consent row into the
wildcard form. Used to state that the unscoped consent check cannot
distinguish actor-specific grants from wildcard grants. -/
def eraseGrantees (db : DB) : DB :=
  { db with consents := db.consents.map (fun c : Consent => { c with granted_to := none }) }

/-- The device+consent store for the ingestion claims: an active device,
patient p1, and an unrevoked unexpired treatment consent. -/
def dbC1 : DB :=
  { emptyDB with
      devices := [dev1]
      patients := [patientP1]
      consents := [consentActiveP1]
      nextId := 1 }

/-- A validated request from dev1 carrying one heart-rate reading for p1. -/
def reqC1 : Ingest :=
  { blankIngest with
      device_id := "dev1"
      api_key := "k1"
      patient_id := "p1"
      heart_rate := some 72 }

/-- The raw body of the fault-tolerance scenario: heart_rate 72 together
with the unparseable string value for glucose. -/
def rawC3 : RawIngest :=
  { blankRaw with
      device_id := "dev1"
      api_key := "k1"
      patient_id := "p1"
      heart_rate := some (.jnum 72)
      glucose := some (.jstr "abc") }

/-- A granted treatment consent for p1 whose expiry has already passed at
time 1000. -/
def consentExpired : Consent := { consentActiveP1 with expiry_date := some 100 }

/-- A store whose only consent row for (p1, treatment, no grantee) is the
expired one. -/
def dbC7 : DB := { emptyDB with consents := [consentExpired], nextId := 1 }

/-- A treatment consent for p1 granted specifically to doctor d9. -/
def consentDoc : Consent := { consentActiveP1 with granted_to := some ("d9") }

/-- A store holding only the doctor-specific consent row. -/
def dbC10 : DB := { emptyDB with consents := [consentDoc], nextId := 1 }

/-- An active, never terminated emergency record whose natural expiry
(expires_at 100) has passed at time 1000. -/
def emExpired : EmergencyAccess :=
  { id := 0, patient_id := "p1", triggered_by := "u1",
    trigger_reason := "crash", trigger_keyword := none, granted_at := 0,
    expires_at := 100, is_active := true, terminated := false,
    terminated_at := none, terminated_by := none, termination_reason := none,
    hospital_notified := true, notification_sent_at := some 0,
    access_count := 0, last_accessed_at := none }

/-- A store holding only the naturally expired emergency record. -/
def dbC8 : DB := { emptyDB with emergencies := [emExpired], nextId := 1 }

/-- The patient-only store the emergency scenario starts from. -/
def dbEmg : DB := { emptyDB with patients := [patientP1] }

/-- The store after triggering emergency access for p1 at time 0. -/
def dbEmgTrig : DB := (triggerEmergencyAccess dbEmg 0 "p1" userDoc "crash" none).2

/-- The store after additionally terminating that access at time 100,
well before its natural expiry at 7200. -/
def dbEmgTerm : DB := (terminateEmergencyAccess dbEmgTrig 100 0 userDoc "stabilized").2

/-- A previously committed unbatched glucose reading for another patient. -/
def oldVitalC5 : Vital := { glucoseVital 320 with id := 0, patient_id := "p2" }

/-- The unbatched heart-rate reading the current request stages. -/
def newVitalC5 : Vital :=
  { id := 1, patient_id := "p1", vital_type := "heart_rate",
    value := 130, unit := "bpm", source := "device", source_id := some ("dev1"),
    recorded_at := 0, batch_id := none, notes := none, uploaded_by := none }

/-- The post-staging store of the batchless ingestion scenario: the old
reading was already committed, the new one was staged by this request. -/
def dbC5 : DB := { emptyDB with vitals := [oldVitalC5, newVitalC5], nextId := 2 }

/-- The ingestion consent gate filters on a conjunct that is the constant
false (the class-level property comparison), so it matches no row in any
store. -/
lemma checkPatientConsent_false (db : DB) (pid : String) :
    checkPatientConsent db pid = false := by
  unfold checkPatientConsent consentIsActiveClassLevel
  simp

/-- Claim C1: the consent gate of device ingestion is expected to pass
when the target patient holds an active treatment consent. In the code the
gate filters on the class-level expression Consent.is_active == True,
which is the constant false, so the check denies every patient: even with
an unrevoked, unexpired, granted treatment consent (active both per the
spec definition and per the service-level check), the whole request is
rejected with the 403 consent error and the store is left untouched. -/
theorem C1_consent_gate_constant_false :
    (∀ (db : DB) (pid : String), checkPatientConsent db pid = false) ∧
    activeConsentSpec 1000 consentActiveP1 = true ∧
    checkConsent dbC1 1000 "p1" ConsentPurpose.treatment none = true ∧
    resultErr (ingestDeviceData dbC1 reqC1 1000).1
      = some (403, "Patient has not granted consent for data collection") ∧
    (ingestDeviceData dbC1 reqC1 1000).2 = dbC1 := by
  exact ⟨checkPatientConsent_false, by decide, by decide, by decide, by decide⟩

/-- Claim C2: evaluate on glucose readings, first-match-wins over the
declared rule order. Values 320, 200 and 65 produce the claimed alerts,
but value 50 matches the looser under-70 rule first, because the code
declares under-70 before under-54, so it yields the HIGH low-glucose
alert and never the CRITICAL critical-low alert the claim requires. -/
theorem C2_glucose_rule_order_eval :
    ((evaluateVital emptyDB (glucoseVital 320)).1.map
        (fun a => (a.alert_type, a.severity, a.title))
      = some (AlertType.DIABETES_HIGH, AlertSeverity.CRITICAL,
              "Critical High Blood Glucose")) ∧
    ((evaluateVital emptyDB (glucoseVital 200)).1.map
        (fun a => (a.alert_type, a.severity))
      = some (AlertType.DIABETES_HIGH, AlertSeverity.HIGH)) ∧
    ((evaluateVital emptyDB (glucoseVital 65)).1.map
        (fun a => (a.alert_type, a.severity, a.title))
      = some (AlertType.DIABETES_LOW, AlertSeverity.HIGH, "Low Blood Glucose")) ∧
    ((evaluateVital emptyDB (glucoseVital 50)).1.map
        (fun a => (a.alert_type, a.severity, a.title))
      = some (AlertType.DIABETES_LOW, AlertSeverity.HIGH, "Low Blood Glucose")) ∧
    ((evaluateVital emptyDB (glucoseVital 50)).1.map (fun a => a.severity)
      ≠ some AlertSeverity.CRITICAL) := by
  decide

/-- Claim C3 counterexample: on the payload with heart_rate 72 and the
unparseable glucose string, the pipeline does not persist the heart-rate
vital and does not answer success; pydantic validation rejects the whole
request with a 422 before the handler runs, and the store is unchanged. -/
theorem C3_counterexample :
    resultErr (ingestRaw dbC1 rawC3 1000).1
      = some (422, "glucose: value is not a valid float") ∧
    (ingestRaw dbC1 rawC3 1000).2 = dbC1 ∧
    (ingestRaw dbC1 rawC3 1000).2.vitals = [] := by
  decide

/-- Claim C3 (amended): a payload whose glucose field is an unparseable
string is rejected as a whole by schema validation, for every store and
receipt time: no field of it is stored. Fields are dropped individually
only when absent: the staging loop on the validated request that carries
just heart_rate stages exactly the heart-rate vital. -/
theorem C3_unparseable_field_rejects_request (db : DB) (now : Time) :
    ingestRaw db rawC3 now
      = (.error ⟨422, "glucose: value is not a valid float"⟩, db) ∧
    (stageVitals reqC1 "dev1" now 1).1 = ["heart_rate"] := by
  exact ⟨rfl, rfl⟩

/-- Claim C4: after an explicit terminate, a later accessData inside the
window is expected to fail with the termination-specific error. In the
code has_expired already returns true for terminated records and is
checked first, so the terminated record (terminated at 100, natural
expiry 7200) is reported at time 3600 with the expiry detail, never the
termination detail; an unterminated record past its expiry does get the
expiry detail. -/
theorem C4_terminated_reported_as_expired :
    (dbEmgTerm.emergencies.map
        (fun e : EmergencyAccess => (e.terminated, e.is_active, e.expires_at)))
      = [(true, false, 7200)] ∧
    ((3600 : Int) < 7200) ∧
    resultErr (emergencyAccessData dbEmgTerm 3600 "p1" 0 userDoc).1
      = some (403, "Emergency access has expired") ∧
    resultErr (emergencyAccessData dbEmgTerm 3600 "p1" 0 userDoc).1
      ≠ some (403, "Emergency access has been terminated") ∧
    resultErr (emergencyAccessData dbEmgTrig 10800 "p1" 0 userDoc).1
      = some (403, "Emergency access has expired") := by
  decide

/-- Claim C5: the post-commit alert pass is expected to cover exactly the
vitals newly committed for the request. The code instead queries every
Vital row whose batch_id equals the request batch_id; with an omitted
batch_id that is an IS NULL scan, so the previously committed unbatched
reading of another patient is re-evaluated and re-alerted alongside the
newly staged one. Moreover no ingestion request can succeed at all,
because the consent gate is the constant false, so the set of successful
requests the claim quantifies over is empty. -/
theorem C5_alert_scan_includes_prior_vitals :
    (∀ (db : DB) (d : Ingest) (now : Time),
        resultOk (ingestDeviceData db d now).1 = none) ∧
    (dbC5.vitals.filter (fun v : Vital => v.batch_id == (none : Option String)))
      = [oldVitalC5, newVitalC5] ∧
    (alertScanStep dbC5 none).1 = [2, 3] ∧
    ((alertScanStep dbC5 none).2.alerts.map (fun a => (a.vital_id, a.patient_id)))
      = [(some 0, "p2"), (some 1, "p1")] := by
  refine ⟨?_, by decide, by decide, by decide⟩
  intro db d now
  unfold ingestDeviceData
  cases hd : (db.devices.filter (fun dev : Device =>
      dev.id == d.device_id && dev.is_active)).head? with
  | none => simp [resultOk]
  | some dev =>
    simp only [hd]
    rw [checkPatientConsent_false db d.patient_id]
    cases hv : verifyPassword d.api_key dev.api_key_hash <;> simp [resultOk]

/-- The head delivered by head? is a member of the list. -/
lemma head?_mem {α : Type} {l : List α} {a : α} (h : l.head? = some a) :
    a ∈ l := by
  cases l with
  | nil => simp at h
  | cons x t => simp at h; simp [h]

/-- Claim C7 counterexample: the only row for (p1, treatment, wildcard) is
granted but past its expiry, hence not active; the claim then requires
grant to insert and return a new active record, but the code returns the
expired row unchanged and inserts nothing. -/
theorem C7_counterexample :
    (∀ c ∈ dbC7.consents, activeConsentSpec 1000 c = false) ∧
    grantConsent dbC7 1000 "p1" ConsentPurpose.treatment "u1" none none none
      = (consentExpired, dbC7) := by
  decide

/-- Claim C7 (amended): grant keys on the first stored row for the exact
(patient, purpose, grantee) tuple, ignoring expiry and revocation
timestamps: a first row with granted true is returned unchanged, even when
past its expiry; a fresh active row is inserted only when no row exists
for the tuple or the first row has granted false. The fresh row is active
whenever no past expiry is supplied. -/
theorem C7_grant_first_row_semantics (db : DB) (now : Time) (pid : String)
    (purpose : ConsentPurpose) (gby : String) (gto : Option String)
    (txt : Option String) (exp : Option Time) :
    (∀ c, tupleFirst db pid purpose gto = some c → c.granted = true →
      grantConsent db now pid purpose gby gto txt exp = (c, db)) ∧
    (∀ c, tupleFirst db pid purpose gto = some c → c.granted = false →
      grantConsent db now pid purpose gby gto txt exp
        = grantInsert db now pid purpose gby gto txt exp) ∧
    (tupleFirst db pid purpose gto = none →
      grantConsent db now pid purpose gby gto txt exp
        = grantInsert db now pid purpose gby gto txt exp) ∧
    ((grantInsert db now pid purpose gby gto txt exp).2.consents
      = db.consents ++ [freshConsent db now pid purpose gby gto txt exp]) ∧
    (exp = none →
      activeConsentSpec now (freshConsent db now pid purpose gby gto txt exp) = true) := by
  refine ⟨?_, ?_, ?_, rfl, ?_⟩
  · intro c hc hg
    unfold grantConsent
    rw [hc]
    simp [hg]
  · intro c hc hg
    unfold grantConsent
    rw [hc]
    simp [hg]
  · intro h
    unfold grantConsent
    rw [h]
  · intro h
    subst h
    rfl

/-- Witness for C7: at the expired-row store the first arm applies and
returns the expired row unchanged; at the empty store the insert arm
applies. -/
theorem C7_grant_first_row_semantics_witness :
    (tupleFirst dbC7 "p1" ConsentPurpose.treatment none = some consentExpired) ∧
    (consentExpired.granted = true) ∧
    (grantConsent dbC7 1000 "p1" ConsentPurpose.treatment "u1" none none none
      = (consentExpired, dbC7)) ∧
    (tupleFirst emptyDB "p1" ConsentPurpose.treatment none = none) ∧
    (grantConsent emptyDB 1000 "p1" ConsentPurpose.treatment "u1" none none none
      = grantInsert emptyDB 1000 "p1" ConsentPurpose.treatment "u1" none none none) :=
  ⟨by decide, by decide,
   (C7_grant_first_row_semantics dbC7 1000 "p1" ConsentPurpose.treatment
      "u1" none none none).1 consentExpired (by decide) (by decide),
   by decide,
   (C7_grant_first_row_semantics emptyDB 1000 "p1" ConsentPurpose.treatment
      "u1" none none none).2.2.1 (by decide)⟩

/-- Claim C8 counterexample: the record is past its natural expiry at time
1000 and was never terminated, yet the active listing still returns it. -/
theorem C8_counterexample :
    emExpired.has_expired 1000 = true ∧
    emExpired.terminated = false ∧
    getActiveEmergencyAccess dbC8 = [emExpired] := by
  decide

/-- Claim C8 (amended): the active listing returns exactly the rows whose
is_active flag is set; the flag is cleared only by explicit termination,
so records past expires_at but never terminated are still listed, while
after a successful terminate no row with the terminated id is listed. -/
theorem C8_listactive_flag_only (db : DB) (now : Time) (eid : Nat)
    (user : UserRec) (reason : String) (e' : EmergencyAccess)
    (hterm : resultOk (terminateEmergencyAccess db now eid user reason).1 = some e') :
    (∀ e ∈ db.emergencies, e.is_active = true → e ∈ getActiveEmergencyAccess db) ∧
    (∀ e ∈ getActiveEmergencyAccess db, e.is_active = true ∧ e ∈ db.emergencies) ∧
    (∀ x ∈ getActiveEmergencyAccess
        (terminateEmergencyAccess db now eid user reason).2,
      (x.id == eid) = false) := by
  refine ⟨?_, ?_, ?_⟩
  · intro e he ha
    exact List.mem_filter.mpr ⟨he, ha⟩
  · intro e he
    exact ⟨(List.mem_filter.mp he).2, (List.mem_filter.mp he).1⟩
  · unfold terminateEmergencyAccess at hterm ⊢
    cases hh : (db.emergencies.filter
        (fun e : EmergencyAccess => e.id == eid)).head? with
    | none =>
      rw [hh] at hterm
      simp [resultOk] at hterm
    | some e =>
      rw [hh] at hterm
      by_cases ht : e.terminated = true
      · simp [ht, resultOk] at hterm
      · have heid : e.id = eid := by
          have hmem := List.mem_filter.mp (head?_mem hh)
          simpa using hmem.2
        simp only [getActiveEmergencyAccess]
        intro x hx
        rw [if_neg ht] at hx
        rcases List.mem_filter.mp hx with ⟨hxm, hxa⟩
        rcases List.mem_map.mp hxm with ⟨y, hy, hyx⟩
        by_cases hyid : (y.id == e.id) = true
        · rw [if_pos hyid] at hyx
          rw [← hyx] at hxa
          simp at hxa
        · rw [if_neg hyid] at hyx
          rw [← hyx]
          have h1 : y.id ≠ e.id := by simpa using hyid
          have h2 : y.id ≠ eid := heid ▸ h1
          simp [h2]

/-- The record produced by terminating emExpired at time 1000. -/
def emTermW : EmergencyAccess :=
  { emExpired with
      terminated := true
      terminated_at := some 1000
      terminated_by := some ("u1")
      termination_reason := some ("cleanup")
      is_active := false }

/-- Witness for C8 (amended): terminating the expired record at the
concrete store discharges the hypothesis, and the conclusions hold there. -/
theorem C8_listactive_flag_only_witness :
    (resultOk (terminateEmergencyAccess dbC8 1000 0 userDoc ("cleanup")).1
      = some emTermW) ∧
    ((∀ e ∈ dbC8.emergencies, e.is_active = true →
        e ∈ getActiveEmergencyAccess dbC8) ∧
     (∀ e ∈ getActiveEmergencyAccess dbC8,
        e.is_active = true ∧ e ∈ dbC8.emergencies) ∧
     (∀ x ∈ getActiveEmergencyAccess
         (terminateEmergencyAccess dbC8 1000 0 userDoc ("cleanup")).2,
       (x.id == 0) = false)) :=
  ⟨by decide,
   C8_listactive_flag_only dbC8 1000 0 userDoc ("cleanup") emTermW (by decide)⟩

/-- Claim C10: when the consent check is invoked without a requesting
actor, the grantee column is never consulted: the result over any store
equals the result over the same store with every grantee erased to the
wildcard, and concretely a consent granted specifically to doctor d9
satisfies the unscoped check although no wildcard row exists. -/
theorem C10_unscoped_check_ignores_grantee :
    (∀ (db : DB) (now : Time) (pid : String) (purpose : ConsentPurpose),
      checkConsent db now pid purpose none
        = checkConsent (eraseGrantees db) now pid purpose none) ∧
    checkConsent dbC10 1000 "p1" ConsentPurpose.treatment none = true ∧
    (∀ c ∈ dbC10.consents, c.granted_to ≠ none) := by
  refine ⟨?_, by decide, by decide⟩
  intro db now pid purpose
  have hfm : ∀ (l : List Consent),
      (l.map (fun c : Consent => { c with granted_to := none })).filter
          (fun c : Consent => c.patient_id == pid && c.purpose == purpose && c.granted)
        = (l.filter (fun c : Consent =>
            c.patient_id == pid && c.purpose == purpose && c.granted)).map
            (fun c : Consent => { c with granted_to := none }) := by
    intro l
    induction l with
    | nil => rfl
    | cons a t ih =>
      by_cases h : (a.patient_id == pid && a.purpose == purpose && a.granted) = true
      · simp only [List.map_cons, List.filter_cons]
        rw [if_pos h, if_pos (by simpa using h)]
        simp [ih]
      · simp only [List.map_cons, List.filter_cons]
        rw [if_neg h, if_neg (by simpa using h)]
        exact ih
  unfold checkConsent eraseGrantees
  simp only []
  rw [hfm db.consents]
  cases hh : (db.consents.filter (fun c : Consent =>
      c.patient_id == pid && c.purpose == purpose && c.granted)).head? with
  | none => simp [hh]
  | some c => simp [hh]

/-- Claim C9: every accessData call that increments the access counter
also appends the per-access EMERGENCY_ACCESS audit row, over every store
satisfying the referential invariant that each emergency record points at
an existing patient row (which all API paths maintain: trigger requires
the patient and patient deletion is a soft flag flip). The emergencies
table is written by this endpoint only through the counter increment, so
any change to it entails the audit append. -/
theorem C9_audit_per_access (db : DB) (now : Time) (pid : String) (eid : Nat)
    (user : UserRec)
    (hfk : ∀ e ∈ db.emergencies, ∃ p ∈ db.patients, p.id = e.patient_id) :
    (emergencyAccessData db now pid eid user).2.emergencies ≠ db.emergencies →
      ∃ a, (emergencyAccessData db now pid eid user).2.audits
            = db.audits ++ [a] ∧
        a.action = AuditAction.EMERGENCY_ACCESS ∧
        a.actor_id = some user.id := by
  intro hmut
  unfold emergencyAccessData at hmut ⊢
  cases hh : (db.emergencies.filter (fun e : EmergencyAccess =>
      e.id == eid && e.patient_id == pid)).head? with
  | none =>
    rw [hh] at hmut
    simp at hmut
  | some e =>
    rw [hh] at hmut
    dsimp only [] at hmut ⊢
    by_cases hex : e.has_expired now = true
    · rw [if_pos hex] at hmut
      simp at hmut
    · rw [if_neg hex] at hmut ⊢
      by_cases ht2 : e.terminated = true
      · rw [if_pos ht2] at hmut
        simp at hmut
      · have hmem := List.mem_filter.mp (head?_mem hh)
        have hpid : e.patient_id = pid := by
          have := hmem.2
          simp at this
          exact this.2
        rcases hfk e hmem.1 with ⟨p, hp, hpe⟩
        have hne : db.patients.filter (fun q : Patient => q.id == pid) ≠ [] := by
          intro hnil
          have hall := List.filter_eq_nil_iff.mp hnil p hp
          rw [hpe, hpid] at hall
          simp at hall
        rw [if_neg ht2]
        cases hph : (db.patients.filter (fun q : Patient => q.id == pid)).head? with
        | none => exact absurd (List.head?_eq_none_iff.mp hph) hne
        | some p' => exact ⟨_, rfl, rfl, rfl⟩

/-- An active emergency record for p1, unterminated, expiring at 7200. -/
def emActiveW : EmergencyAccess := { emExpired with expires_at := 7200 }

/-- The store the C9 witness runs against. -/
def dbC9 : DB :=
  { emptyDB with patients := [patientP1], emergencies := [emActiveW], nextId := 1 }

/-- Witness for C9: the referential invariant holds at the concrete store,
the call at time 3600 really does change the emergencies table (the
counter increments), and the audited conclusion follows by the theorem. -/
theorem C9_audit_per_access_witness :
    (∀ e ∈ dbC9.emergencies, ∃ p ∈ dbC9.patients, p.id = e.patient_id) ∧
    ((emergencyAccessData dbC9 3600 "p1" 0 userDoc).2.emergencies
      ≠ dbC9.emergencies) ∧
    ((emergencyAccessData dbC9 3600 "p1" 0 userDoc).2.emergencies
        ≠ dbC9.emergencies →
      ∃ a, (emergencyAccessData dbC9 3600 "p1" 0 userDoc).2.audits
            = dbC9.audits ++ [a] ∧
        a.action = AuditAction.EMERGENCY_ACCESS ∧
        a.actor_id = some userDoc.id) :=
  ⟨by decide, by decide,
   C9_audit_per_access dbC9 3600 "p1" 0 userDoc (by decide)⟩

/-- No record of the list carries the fresh id, so the lookup filter of
accessData finds nothing in it. -/
lemma emFilter2_nil (l : List EmergencyAccess) (n : Nat) (pid : String)
    (h : ∀ x ∈ l, x.id ≠ n) :
    l.filter (fun e : EmergencyAccess => e.id == n && e.patient_id == pid) = [] := by
  rw [List.filter_eq_nil_iff]
  intro x hx
  simp [h x hx]

/-- No record of the list carries the fresh id, so the id-only filter
finds nothing in it. -/
lemma emFilter1_nil (l : List EmergencyAccess) (n : Nat)
    (h : ∀ x ∈ l, x.id ≠ n) :
    l.filter (fun e : EmergencyAccess => e.id == n) = [] := by
  rw [List.filter_eq_nil_iff]
  intro x hx
  simp [h x hx]

/-- The per-id update map leaves a list untouched when no element carries
the id. -/
lemma emMap_id (l : List EmergencyAccess) (n : Nat) (f : EmergencyAccess)
    (h : ∀ x ∈ l, x.id ≠ n) :
    l.map (fun x : EmergencyAccess => if x.id == n then f else x) = l := by
  induction l with
  | nil => rfl
  | cons a t ih =>
    simp only [List.map_cons]
    rw [if_neg (by simp [h a (by simp)])]
    rw [ih (fun x hx => h x (by simp [hx]))]

/-- Claim C6: triggering at T with the configured 2 hour duration yields
expires_at T plus 7200 and a zero counter; accessData at any time up to
the expiry (here the record matches the patient and is unterminated)
succeeds, reports counter 1 and stores the record with counter 1 and
last_accessed_at stamped; accessData at T plus 10800 fails with the
expiry-specific error. Holds over every store in which the patient lookup
yields pat and the generated id is fresh. -/
theorem C6_emergency_window (db : DB) (T t : Time) (pid : String)
    (user : UserRec) (reason : String) (kw : Option String) (pat : Patient)
    (hp : (db.patients.filter (fun p : Patient => p.id == pid)).head? = some pat)
    (hfresh : ∀ x ∈ db.emergencies, x.id ≠ db.nextId)
    (ht : t ≤ T + 7200) :
    ∃ e1 db1,
      triggerEmergencyAccess db T pid user reason kw = (.ok e1, db1) ∧
      e1.id = db.nextId ∧
      e1.expires_at = T + 7200 ∧
      e1.access_count = 0 ∧
      e1.terminated = false ∧
      (∃ resp db2,
        emergencyAccessData db1 t pid e1.id user = (.ok resp, db2) ∧
        resp.access_count = 1 ∧
        (∃ e', db2.emergencies.filter
            (fun x : EmergencyAccess => x.id == e1.id) = [e'] ∧
          e'.access_count = 1 ∧ e'.last_accessed_at = some t)) ∧
      resultErr (emergencyAccessData db1 (T + 10800) pid e1.id user).1
        = some (403, "Emergency access has expired") := by
  have hdur : EMERGENCY_ACCESS_DURATION_HOURS * 3600 = (7200 : Int) := by
    norm_num [EMERGENCY_ACCESS_DURATION_HOURS]
  have hNid : (notifiedAccess db T pid user reason kw).id = db.nextId := rfl
  have hNpid : (notifiedAccess db T pid user reason kw).patient_id = pid := rfl
  have hNexp : (notifiedAccess db T pid user reason kw).expires_at = T + 7200 := by
    show T + EMERGENCY_ACCESS_DURATION_HOURS * 3600 = T + 7200
    rw [hdur]
  have hNexpired : ∀ u : Time, u ≤ T + 7200 →
      (notifiedAccess db T pid user reason kw).has_expired u = false := by
    intro u hu
    unfold EmergencyAccess.has_expired
    rw [if_neg (by simp [notifiedAccess, triggeredAccess])]
    rw [hNexp]
    exact decide_eq_false (not_lt.mpr hu)
  have hNexpired2 :
      (notifiedAccess db T pid user reason kw).has_expired (T + 10800) = true := by
    unfold EmergencyAccess.has_expired
    rw [if_neg (by simp [notifiedAccess, triggeredAccess])]
    rw [hNexp]
    exact decide_eq_true (add_lt_add_left (by norm_num : (7200 : Int) < 10800) T)
  unfold triggerEmergencyAccess
  rw [hp]
  refine ⟨_, _, rfl, hNid, hNexp, rfl, rfl, ?_, ?_⟩
  · -- accessData at time t succeeds and stores the incremented record
    unfold emergencyAccessData
    rw [hNid]
    dsimp only []
    rw [List.filter_append, emFilter2_nil db.emergencies db.nextId pid hfresh]
    have hpredN : ((notifiedAccess db T pid user reason kw).id == db.nextId &&
        (notifiedAccess db T pid user reason kw).patient_id == pid) = true := by
      rw [hNid, hNpid]
      simp
    simp only [List.nil_append, List.filter_cons, List.filter_nil, hpredN,
      if_true, List.head?_cons]
    rw [if_neg (by rw [hNexpired t ht]; exact Bool.false_ne_true)]
    rw [if_neg (by simp [notifiedAccess, triggeredAccess])]
    rw [hp]
    refine ⟨_, _, rfl, rfl, ?_⟩
    rw [hNid]
    rw [List.map_append, emMap_id db.emergencies db.nextId _ hfresh]
    simp only [List.map_cons, List.map_nil, hNid, beq_self_eq_true, if_true]
    rw [List.filter_append, emFilter1_nil db.emergencies db.nextId hfresh]
    refine ⟨incrementedAccess t (notifiedAccess db T pid user reason kw), ?_, rfl, rfl⟩
    simp [incrementedAccess, hNid]
  · -- accessData at time T + 10800 fails with the expiry detail
    unfold emergencyAccessData
    rw [hNid]
    dsimp only []
    rw [List.filter_append, emFilter2_nil db.emergencies db.nextId pid hfresh]
    have hpredN : ((notifiedAccess db T pid user reason kw).id == db.nextId &&
        (notifiedAccess db T pid user reason kw).patient_id == pid) = true := by
      rw [hNid, hNpid]
      simp
    simp only [List.nil_append, List.filter_cons, List.filter_nil, hpredN,
      if_true, List.head?_cons]
    rw [if_pos hNexpired2]
    rfl

/-- Witness for C6 at the concrete one-patient store, T 0 and access time
3600: all three hypotheses hold there and the windowed behaviour follows
by the theorem. -/
theorem C6_emergency_window_witness :
    ((dbEmg.patients.filter (fun p : Patient => p.id == "p1")).head?
      = some patientP1) ∧
    (∀ x ∈ dbEmg.emergencies, x.id ≠ dbEmg.nextId) ∧
    ((3600 : Int) ≤ 0 + 7200) ∧
    (∃ e1 db1,
      triggerEmergencyAccess dbEmg 0 "p1" userDoc "crash" none = (.ok e1, db1) ∧
      e1.id = dbEmg.nextId ∧
      e1.expires_at = 0 + 7200 ∧
      e1.access_count = 0 ∧
      e1.terminated = false ∧
      (∃ resp db2,
        emergencyAccessData db1 3600 "p1" e1.id userDoc = (.ok resp, db2) ∧
        resp.access_count = 1 ∧
        (∃ e', db2.emergencies.filter
            (fun x : EmergencyAccess => x.id == e1.id) = [e'] ∧
          e'.access_count = 1 ∧ e'.last_accessed_at = some 3600)) ∧
      resultErr (emergencyAccessData db1 (0 + 10800) "p1" e1.id userDoc).1
        = some (403, "Emergency access has expired")) :=
  ⟨by decide, by decide, by decide,
   C6_emergency_window dbEmg 0 3600 "p1" userDoc ("crash") none patientP1
     (by decide) (by decide) (by decide)⟩

end MediQuest
